import Mathlib

/-!
Verification of the decision core of the Vibe_Chart backend
(`src/backend/app.py`): column-type inference, the chart compatibility
matcher, and the render dispatcher, shallowly embedded in Lean.

Pandas/matplotlib effects are made explicit: a dataset cell is missing
(NaN), a number, or text; operations that can raise a Python exception
return `Except String`; the number of open matplotlib figures is threaded
as an explicit `Nat`.
-/

namespace VibeChart

/-- A scalar cell of a dataset column: missing (NaN), a number, or text.
Numbers are modelled as exact rationals. -/
inductive Cell where
  | na : Cell
  | num : ℚ → Cell
  | str : String → Cell
deriving DecidableEq

/-- Whether a cell is missing (NaN). -/
def Cell.isNa : Cell → Bool
  | .na => true
  | _ => false

/-- Whether a cell is text. -/
def Cell.isStr : Cell → Bool
  | .str _ => true
  | _ => false

/-- `pd.api.types.is_numeric_dtype`: the column's dtype is numeric exactly
when no cell is text (a float column may contain NaN).  The empty series is
modelled with numeric dtype, as `pd.Series([], dtype=float)`. -/
def isNumericDtype (series : List Cell) : Bool :=
  series.all (fun c => !c.isStr)

/-- `series.nunique()`: the number of distinct non-missing values. -/
def series_nunique (series : List Cell) : ℕ :=
  ((series.filter (fun c => !c.isNa)).dedup).length

/-- The number of non-missing cells (used to state what the spec's
`non_missing_count` denominator would be; the code itself divides by
`len(series)`). -/
def nonNaCount (series : List Cell) : ℕ :=
  (series.filter (fun c => !c.isNa)).length

/-- The two inferred column kinds. -/
inductive ColType where
  | numeric : ColType
  | categorical : ColType
deriving DecidableEq

/-- `infer_column_type` (app.py lines 47-60).  On a numeric-dtype series it
computes `unique_ratio = series.nunique() / len(series)`; on a zero-length
numeric-dtype series the Python division `nunique()/len(series)` raises
`ZeroDivisionError`, modelled as `Except.error`.  The comparison
`unique_ratio < 0.05` is translated exactly, multiplying through by the
positive denominator: `nunique/len < 1/20` iff `20 * nunique < len`
(`ratio_lt_inv_twenty_iff` below proves the equivalence). -/
def infer_column_type (series : List Cell) : Except String ColType :=
  if isNumericDtype series then
    if series.length = 0 then
      Except.error "ZeroDivisionError: division by zero"
    else
      if 20 * series_nunique series < series.length
          ∧ series_nunique series < 10 then
        Except.ok ColType.categorical
      else
        Except.ok ColType.numeric
  else
    Except.ok ColType.categorical

/-- The exact-arithmetic form of `unique_ratio < 0.05` used in
`infer_column_type` agrees with the rational division form whenever the
denominator is nonzero. -/
theorem ratio_lt_inv_twenty_iff (n L : ℕ) (hL : L ≠ 0) :
    ((n : ℚ) / (L : ℚ) < 1/20) ↔ 20 * n < L := by
  have hL0 : (0 : ℚ) < (L : ℚ) := by exact_mod_cast Nat.pos_of_ne_zero hL
  rw [div_lt_div_iff₀ hL0 (by norm_num : (0:ℚ) < 20), one_mul, mul_comm]
  norm_cast

/-- The 21-cell numeric column `[1, NaN × 20]` separating the two possible
denominators of `unique_ratio`. -/
def col21 : List Cell := Cell.num 1 :: List.replicate 20 Cell.na

/-- One entry of the column metadata produced by `analyze_dataframe`:
`{'name': col, 'type': col_type, 'sample_values': ...}`. -/
structure ColumnMeta where
  name : String
  ctype : ColType
  sample_values : List Cell
deriving DecidableEq

/-- The `suggestions` dict of `check_chart_compatibility`:
`{'x_column': None, 'y_column': None, 'group_column': None}`. -/
structure Suggestions where
  x_column : Option String
  y_column : Option String
  group_column : Option String
deriving DecidableEq

/-- The triple returned by `check_chart_compatibility`:
`(compatible, reason, suggested_columns)`. -/
structure CompatResult where
  compatible : Bool
  reason : String
  suggestions : Suggestions
deriving DecidableEq

/-- Names of the numeric columns, in dataset order:
`[c['name'] for c in columns_meta if c['type'] == 'numeric']`. -/
def numericColNames (columns_meta : List ColumnMeta) : List String :=
  (columns_meta.filter (fun c => c.ctype = ColType.numeric)).map (fun c => c.name)

/-- Names of the categorical columns, in dataset order. -/
def categoricalColNames (columns_meta : List ColumnMeta) : List String :=
  (columns_meta.filter (fun c => c.ctype = ColType.categorical)).map (fun c => c.name)

/-- `check_chart_compatibility` (app.py lines 141-225), translated branch by
branch.  Python's `cols[0]` under a nonemptiness guard is `head?`; Python's
`categorical_cols[0] if categorical_cols else 'index'` is `headD _ "index"`;
the failure returns hand back the untouched all-`None` suggestions dict. -/
def check_chart_compatibility (chart_type : String)
    (columns_meta : List ColumnMeta) : CompatResult :=
  if chart_type = "bar" then
    if 1 ≤ (categoricalColNames columns_meta).length ∧ 1 ≤ (numericColNames columns_meta).length then
      ⟨true, "Found categorical + numeric columns",
        ⟨(categoricalColNames columns_meta).head?, (numericColNames columns_meta).head?, none⟩⟩
    else
      ⟨false, "Bar chart requires 1 categorical and 1 numeric column", (⟨none, none, none⟩ : Suggestions)⟩
  else if chart_type = "line" then
    if 1 ≤ (numericColNames columns_meta).length then
      ⟨true, "Found columns for line chart",
        ⟨some ((categoricalColNames columns_meta).headD "index"), (numericColNames columns_meta).head?, none⟩⟩
    else
      ⟨false, "Line chart requires at least 1 numeric column", (⟨none, none, none⟩ : Suggestions)⟩
  else if chart_type = "scatter" then
    if 2 ≤ (numericColNames columns_meta).length then
      ⟨true, "Found 2 numeric columns",
        ⟨(numericColNames columns_meta).head?, (numericColNames columns_meta)[1]?, none⟩⟩
    else
      ⟨false, "Scatter plot requires 2 numeric columns", (⟨none, none, none⟩ : Suggestions)⟩
  else if chart_type = "histogram" then
    if 1 ≤ (numericColNames columns_meta).length then
      ⟨true, "Found numeric column", ⟨(numericColNames columns_meta).head?, none, none⟩⟩
    else
      ⟨false, "Histogram requires 1 numeric column", (⟨none, none, none⟩ : Suggestions)⟩
  else if chart_type = "boxplot" then
    if 1 ≤ (numericColNames columns_meta).length then
      ⟨true, "Found numeric column for boxplot",
        ⟨none, (numericColNames columns_meta).head?, (categoricalColNames columns_meta).head?⟩⟩
    else
      ⟨false, "Boxplot requires 1 numeric column", (⟨none, none, none⟩ : Suggestions)⟩
  else if chart_type = "heatmap" then
    if 2 ≤ (categoricalColNames columns_meta).length ∧ 1 ≤ (numericColNames columns_meta).length then
      ⟨true, "Found 2 categorical + 1 numeric",
        ⟨(categoricalColNames columns_meta).head?, (categoricalColNames columns_meta)[1]?, (numericColNames columns_meta).head?⟩⟩
    else
      ⟨false, "Heatmap requires 2 categorical and 1 numeric column", (⟨none, none, none⟩ : Suggestions)⟩
  else if chart_type = "pie" then
    if 1 ≤ (categoricalColNames columns_meta).length ∧ 1 ≤ (numericColNames columns_meta).length then
      ⟨true, "Found categorical + numeric columns",
        ⟨(categoricalColNames columns_meta).head?, (numericColNames columns_meta).head?, none⟩⟩
    else
      ⟨false, "Pie chart requires 1 categorical and 1 numeric column", (⟨none, none, none⟩ : Suggestions)⟩
  else if chart_type = "violin" then
    if 1 ≤ (numericColNames columns_meta).length then
      ⟨true, "Found numeric column for violin plot",
        ⟨none, (numericColNames columns_meta).head?, (categoricalColNames columns_meta).head?⟩⟩
    else
      ⟨false, "Violin plot requires 1 numeric column", (⟨none, none, none⟩ : Suggestions)⟩
  else if chart_type = "area" then
    if 1 ≤ (numericColNames columns_meta).length then
      ⟨true, "Found columns for area chart",
        ⟨some ((categoricalColNames columns_meta).headD "index"), (numericColNames columns_meta).head?, none⟩⟩
    else
      ⟨false, "Area chart requires at least 1 numeric column", (⟨none, none, none⟩ : Suggestions)⟩
  else if chart_type = "stacked_bar" then
    if 2 ≤ (categoricalColNames columns_meta).length ∧ 1 ≤ (numericColNames columns_meta).length then
      ⟨true, "Found 2 categorical + 1 numeric",
        ⟨(categoricalColNames columns_meta).head?, (numericColNames columns_meta).head?, (categoricalColNames columns_meta)[1]?⟩⟩
    else
      ⟨false, "Stacked bar requires 2 categorical and 1 numeric column", (⟨none, none, none⟩ : Suggestions)⟩
  else
    ⟨false, "Unknown chart type: " ++ chart_type, (⟨none, none, none⟩ : Suggestions)⟩

/-- The ten chart type ids registered in `get_chart_types_info`. -/
def registeredChartTypes : List String :=
  ["bar", "line", "scatter", "histogram", "boxplot",
   "heatmap", "pie", "violin", "area", "stacked_bar"]

/-- The compatibility verdict as a function of the two column counts alone;
`compat_compatible_eq_ofCounts` proves `check_chart_compatibility` decides
`compatible` exactly this way. -/
def compatOfCounts (chart_type : String) (numCount catCount : ℕ) : Bool :=
  if chart_type = "bar" then (if 1 ≤ catCount ∧ 1 ≤ numCount then true else false)
  else if chart_type = "line" then (if 1 ≤ numCount then true else false)
  else if chart_type = "scatter" then (if 2 ≤ numCount then true else false)
  else if chart_type = "histogram" then (if 1 ≤ numCount then true else false)
  else if chart_type = "boxplot" then (if 1 ≤ numCount then true else false)
  else if chart_type = "heatmap" then (if 2 ≤ catCount ∧ 1 ≤ numCount then true else false)
  else if chart_type = "pie" then (if 1 ≤ catCount ∧ 1 ≤ numCount then true else false)
  else if chart_type = "violin" then (if 1 ≤ numCount then true else false)
  else if chart_type = "area" then (if 1 ≤ numCount then true else false)
  else if chart_type = "stacked_bar" then (if 2 ≤ catCount ∧ 1 ≤ numCount then true else false)
  else false

theorem compat_compatible_eq_ofCounts (chart_type : String)
    (columns_meta : List ColumnMeta) :
    (check_chart_compatibility chart_type columns_meta).compatible =
      compatOfCounts chart_type (numericColNames columns_meta).length
        (categoricalColNames columns_meta).length := by
  unfold check_chart_compatibility compatOfCounts
  by_cases h1 : chart_type = "bar"
  · rw [if_pos h1, if_pos h1]
    split_ifs <;> rfl
  rw [if_neg h1, if_neg h1]
  by_cases h2 : chart_type = "line"
  · rw [if_pos h2, if_pos h2]
    split_ifs <;> rfl
  rw [if_neg h2, if_neg h2]
  by_cases h3 : chart_type = "scatter"
  · rw [if_pos h3, if_pos h3]
    split_ifs <;> rfl
  rw [if_neg h3, if_neg h3]
  by_cases h4 : chart_type = "histogram"
  · rw [if_pos h4, if_pos h4]
    split_ifs <;> rfl
  rw [if_neg h4, if_neg h4]
  by_cases h5 : chart_type = "boxplot"
  · rw [if_pos h5, if_pos h5]
    split_ifs <;> rfl
  rw [if_neg h5, if_neg h5]
  by_cases h6 : chart_type = "heatmap"
  · rw [if_pos h6, if_pos h6]
    split_ifs <;> rfl
  rw [if_neg h6, if_neg h6]
  by_cases h7 : chart_type = "pie"
  · rw [if_pos h7, if_pos h7]
    split_ifs <;> rfl
  rw [if_neg h7, if_neg h7]
  by_cases h8 : chart_type = "violin"
  · rw [if_pos h8, if_pos h8]
    split_ifs <;> rfl
  rw [if_neg h8, if_neg h8]
  by_cases h9 : chart_type = "area"
  · rw [if_pos h9, if_pos h9]
    split_ifs <;> rfl
  rw [if_neg h9, if_neg h9]
  by_cases h10 : chart_type = "stacked_bar"
  · rw [if_pos h10, if_pos h10]
    split_ifs <;> rfl
  rw [if_neg h10, if_neg h10]

end VibeChart

namespace VibeChart

/-- C1 (counterexample): on the all-numeric column `[1, NaN × 20]` the
distinct non-missing count (1) divided by the non-missing count (1) is
`1 ≥ 0.05`, so the claim requires NUMERIC; the code divides by the total
row count 21 instead (`1/21 < 0.05`, distinct `1 < 10`) and returns
CATEGORICAL. -/
theorem infer_ratio_denominator_cex :
    isNumericDtype col21 = true ∧
    (1/20 : ℚ) ≤ (series_nunique col21 : ℚ) / (nonNaCount col21 : ℚ) ∧
    series_nunique col21 < 10 ∧
    infer_column_type col21 = Except.ok ColType.categorical := by
  refine ⟨by decide, ?_, by decide, by rfl⟩
  have h1 : series_nunique col21 = 1 := by decide
  have h2 : nonNaCount col21 = 1 := by decide
  rw [h1, h2]
  norm_num

/-- C1 (amended): for every nonempty column whose cells are all numeric or
missing, `infer_column_type` returns NUMERIC exactly when
`unique_ratio >= 0.05` or the distinct non-missing count is at least 10,
and CATEGORICAL otherwise, where `unique_ratio` is the distinct non-missing
count divided by the TOTAL row count `len(series)` (missing rows
included). -/
theorem infer_numeric_iff (s : List Cell) (h1 : isNumericDtype s = true)
    (h2 : s ≠ []) :
    (infer_column_type s = Except.ok ColType.numeric ↔
      ((1/20 : ℚ) ≤ (series_nunique s : ℚ) / (s.length : ℚ)
        ∨ 10 ≤ series_nunique s)) ∧
    (infer_column_type s = Except.ok ColType.categorical ↔
      ((series_nunique s : ℚ) / (s.length : ℚ) < 1/20
        ∧ series_nunique s < 10)) := by
  have hlen : ¬ s.length = 0 := fun hl => h2 (List.length_eq_zero.mp hl)
  have hratio : ((series_nunique s : ℚ) / (s.length : ℚ) < 1/20) ↔
      20 * series_nunique s < s.length :=
    ratio_lt_inv_twenty_iff (series_nunique s) s.length hlen
  unfold infer_column_type
  rw [if_pos h1, if_neg hlen]
  by_cases hc : (20 * series_nunique s < s.length ∧ series_nunique s < 10)
  · rw [if_pos hc]
    constructor
    · constructor
      · intro hx
        simp at hx
      · rintro (hx | hx)
        · exact absurd (hratio.mpr hc.1) (not_lt.mpr hx)
        · exact absurd hc.2 (not_lt.mpr hx)
    · constructor
      · intro _
        exact ⟨hratio.mpr hc.1, hc.2⟩
      · intro _
        rfl
  · rw [if_neg hc]
    constructor
    · constructor
      · intro _
        rcases not_and_or.mp hc with h | h
        · exact Or.inl (not_lt.mp (fun hq => h (hratio.mp hq)))
        · exact Or.inr (not_lt.mp h)
      · intro _
        rfl
    · constructor
      · intro hx
        simp at hx
      · intro hx
        exact absurd ⟨hratio.mp hx.1, hx.2⟩ hc

/-- Witness for C1's amended theorem at the singleton numeric column
`[1]`. -/
theorem infer_numeric_iff_witness :
    isNumericDtype [Cell.num 1] = true ∧ ([Cell.num 1] : List Cell) ≠ [] ∧
    ((infer_column_type [Cell.num 1] = Except.ok ColType.numeric ↔
      ((1/20 : ℚ) ≤ (series_nunique [Cell.num 1] : ℚ)
          / (([Cell.num 1] : List Cell).length : ℚ)
        ∨ 10 ≤ series_nunique [Cell.num 1])) ∧
    (infer_column_type [Cell.num 1] = Except.ok ColType.categorical ↔
      ((series_nunique [Cell.num 1] : ℚ)
          / (([Cell.num 1] : List Cell).length : ℚ) < 1/20
        ∧ series_nunique [Cell.num 1] < 10))) :=
  ⟨by decide, by decide, infer_numeric_iff [Cell.num 1] (by decide) (by decide)⟩

/-- C7 (counterexample): on a zero-row numeric-dtype column the code
computes `nunique()/len(series)` with `len(series) = 0` and raises
`ZeroDivisionError` instead of returning a type. -/
theorem infer_empty_raises_cex :
    infer_column_type [] = Except.error "ZeroDivisionError: division by zero" := by
  rfl

/-- C7 (amended): `infer_column_type` returns NUMERIC or CATEGORICAL and
never raises for every column with at least one row, including a column
whose values are all missing; only a zero-row numeric-dtype column raises
(division by zero). -/
theorem infer_column_type_total (s : List Cell) (h : s ≠ []) :
    ∃ t : ColType, infer_column_type s = Except.ok t := by
  have hlen : ¬ s.length = 0 := fun hl => h (List.length_eq_zero.mp hl)
  unfold infer_column_type
  split_ifs with h1 h2 <;> exact ⟨_, rfl⟩

/-- Witness for C7's amended theorem at the all-missing one-row column. -/
theorem infer_column_type_total_witness :
    ([Cell.na] : List Cell) ≠ [] ∧
    ∃ t : ColType, infer_column_type [Cell.na] = Except.ok t :=
  ⟨by decide, infer_column_type_total [Cell.na] (by decide)⟩

/-- C9: the `compatible` verdict is a function of the chart type and the
two column counts alone — metadata lists with equal numeric and equal
categorical counts receive the same verdict for every chart type,
regardless of names, order, or sample values. -/
theorem compat_depends_only_on_counts (chart_type : String)
    (m1 m2 : List ColumnMeta)
    (hn : (numericColNames m1).length = (numericColNames m2).length)
    (hc : (categoricalColNames m1).length = (categoricalColNames m2).length) :
    (check_chart_compatibility chart_type m1).compatible =
      (check_chart_compatibility chart_type m2).compatible := by
  rw [compat_compatible_eq_ofCounts, compat_compatible_eq_ofCounts, hn, hc]

/-- Witness for C9 at two metadata lists with different names, order and
sample values but equal counts (one numeric, one categorical each). -/
theorem compat_depends_only_on_counts_witness :
    (numericColNames [⟨"a", ColType.numeric, []⟩,
        ⟨"b", ColType.categorical, [Cell.str "x"]⟩]).length =
      (numericColNames [⟨"z", ColType.categorical, [Cell.num 3]⟩,
        ⟨"w", ColType.numeric, []⟩]).length ∧
    (categoricalColNames [⟨"a", ColType.numeric, []⟩,
        ⟨"b", ColType.categorical, [Cell.str "x"]⟩]).length =
      (categoricalColNames [⟨"z", ColType.categorical, [Cell.num 3]⟩,
        ⟨"w", ColType.numeric, []⟩]).length ∧
    (check_chart_compatibility "bar" [⟨"a", ColType.numeric, []⟩,
        ⟨"b", ColType.categorical, [Cell.str "x"]⟩]).compatible =
      (check_chart_compatibility "bar" [⟨"z", ColType.categorical, [Cell.num 3]⟩,
        ⟨"w", ColType.numeric, []⟩]).compatible :=
  ⟨by decide, by decide,
    compat_depends_only_on_counts "bar" _ _ (by decide) (by decide)⟩

/-- `compatOfCounts` is monotone in both column counts. -/
theorem compatOfCounts_mono (chart_type : String) {nc cc nc2 cc2 : ℕ}
    (hn : nc ≤ nc2) (hc : cc ≤ cc2)
    (h : compatOfCounts chart_type nc cc = true) :
    compatOfCounts chart_type nc2 cc2 = true := by
  unfold compatOfCounts at h ⊢
  by_cases h1 : chart_type = "bar"
  · rw [if_pos h1] at h ⊢
    split_ifs at h ⊢ <;> first | rfl | omega
  rw [if_neg h1] at h ⊢
  by_cases h2 : chart_type = "line"
  · rw [if_pos h2] at h ⊢
    split_ifs at h ⊢ <;> first | rfl | omega
  rw [if_neg h2] at h ⊢
  by_cases h3 : chart_type = "scatter"
  · rw [if_pos h3] at h ⊢
    split_ifs at h ⊢ <;> first | rfl | omega
  rw [if_neg h3] at h ⊢
  by_cases h4 : chart_type = "histogram"
  · rw [if_pos h4] at h ⊢
    split_ifs at h ⊢ <;> first | rfl | omega
  rw [if_neg h4] at h ⊢
  by_cases h5 : chart_type = "boxplot"
  · rw [if_pos h5] at h ⊢
    split_ifs at h ⊢ <;> first | rfl | omega
  rw [if_neg h5] at h ⊢
  by_cases h6 : chart_type = "heatmap"
  · rw [if_pos h6] at h ⊢
    split_ifs at h ⊢ <;> first | rfl | omega
  rw [if_neg h6] at h ⊢
  by_cases h7 : chart_type = "pie"
  · rw [if_pos h7] at h ⊢
    split_ifs at h ⊢ <;> first | rfl | omega
  rw [if_neg h7] at h ⊢
  by_cases h8 : chart_type = "violin"
  · rw [if_pos h8] at h ⊢
    split_ifs at h ⊢ <;> first | rfl | omega
  rw [if_neg h8] at h ⊢
  by_cases h9 : chart_type = "area"
  · rw [if_pos h9] at h ⊢
    split_ifs at h ⊢ <;> first | rfl | omega
  rw [if_neg h9] at h ⊢
  by_cases h10 : chart_type = "stacked_bar"
  · rw [if_pos h10] at h ⊢
    split_ifs at h ⊢ <;> first | rfl | omega
  rw [if_neg h10] at h ⊢
  exact h

/-- C5: compatibility is monotonic in column supply — if `D` is compatible
with a chart type, so is every supersequence `Dp` of `D` (columns added,
none removed). -/
theorem compat_monotone_in_columns (chart_type : String)
    (D Dp : List ColumnMeta) (hsub : D.Sublist Dp)
    (h : (check_chart_compatibility chart_type D).compatible = true) :
    (check_chart_compatibility chart_type Dp).compatible = true := by
  rw [compat_compatible_eq_ofCounts] at h ⊢
  have hn : (numericColNames D).length ≤ (numericColNames Dp).length := by
    simp only [numericColNames, List.length_map]
    exact List.Sublist.length_le (List.Sublist.filter _ hsub)
  have hc : (categoricalColNames D).length ≤ (categoricalColNames Dp).length := by
    simp only [categoricalColNames, List.length_map]
    exact List.Sublist.length_le (List.Sublist.filter _ hsub)
  exact compatOfCounts_mono chart_type hn hc h

/-- Witness for C5: a one-column numeric dataset compatible with
`histogram` stays compatible after a categorical column is appended. -/
theorem compat_monotone_in_columns_witness :
    (check_chart_compatibility "histogram"
      [⟨"v", ColType.numeric, []⟩]).compatible = true ∧
    (check_chart_compatibility "histogram"
      [⟨"v", ColType.numeric, []⟩, ⟨"g", ColType.categorical, []⟩]).compatible
      = true :=
  ⟨by decide,
    compat_monotone_in_columns "histogram"
      [⟨"v", ColType.numeric, []⟩]
      [⟨"v", ColType.numeric, []⟩, ⟨"g", ColType.categorical, []⟩]
      (List.sublist_append_left
        ([⟨"v", ColType.numeric, []⟩] : List ColumnMeta)
        ([⟨"g", ColType.categorical, []⟩] : List ColumnMeta)) (by decide)⟩

/-- C4 (counterexample): at chart type `"unknown_type"` the verdict is
incompatible, but the reason string is `"Unknown chart type: unknown_type"`,
not the claimed `"unknown chart type"`. -/
theorem unknown_chart_reason_cex :
    (check_chart_compatibility "unknown_type" []).compatible = false ∧
    (check_chart_compatibility "unknown_type" []).reason =
      "Unknown chart type: unknown_type" ∧
    (check_chart_compatibility "unknown_type" []).reason ≠
      "unknown chart type" :=
  ⟨by decide, by decide, by decide⟩

/-- C4 (amended): for every chart type id not among the ten registered ids
and every column-metadata list, `check_chart_compatibility` returns
`compatible = false` with reason `"Unknown chart type: <id>"`. -/
theorem unknown_chart_type_verdict (chart_type : String)
    (h : chart_type ∉ registeredChartTypes)
    (columns_meta : List ColumnMeta) :
    (check_chart_compatibility chart_type columns_meta).compatible = false ∧
    (check_chart_compatibility chart_type columns_meta).reason =
      "Unknown chart type: " ++ chart_type := by
  simp only [registeredChartTypes, List.mem_cons, List.not_mem_nil, or_false,
    not_or] at h
  obtain ⟨h1, h2, h3, h4, h5, h6, h7, h8, h9, h10⟩ := h
  unfold check_chart_compatibility
  rw [if_neg h1, if_neg h2, if_neg h3, if_neg h4, if_neg h5, if_neg h6,
    if_neg h7, if_neg h8, if_neg h9, if_neg h10]
  exact ⟨rfl, rfl⟩

/-- Column type required of the column named by the `x_column` suggestion
field, per chart type, following the role table of spec §4.2: numeric for
scatter and histogram, categorical otherwise. -/
def xRequiredType (chart_type : String) : ColType :=
  if chart_type = "scatter" ∨ chart_type = "histogram" then ColType.numeric
  else ColType.categorical

/-- Column type required of the column named by the `y_column` suggestion
field: categorical for heatmap (second key of the pivot), numeric
otherwise. -/
def yRequiredType (chart_type : String) : ColType :=
  if chart_type = "heatmap" then ColType.categorical else ColType.numeric

/-- Column type required of the column named by the `group_column`
suggestion field: for heatmap this field carries the numeric value role;
for boxplot/violin/stacked_bar it carries a categorical group role. -/
def groupRequiredType (chart_type : String) : ColType :=
  if chart_type = "heatmap" then ColType.numeric else ColType.categorical

/-- A name drawn from `categoricalColNames` comes from a categorical column
of the metadata. -/
theorem cat_name_mem_sound (meta : List ColumnMeta) (n : String)
    (h : n ∈ categoricalColNames meta) :
    ∃ c ∈ meta, c.name = n ∧ c.ctype = ColType.categorical := by
  rcases List.mem_map.mp h with ⟨c, hc, hname⟩
  rcases List.mem_filter.mp hc with ⟨hcl, hp⟩
  exact ⟨c, hcl, hname, by simpa using hp⟩

/-- A name drawn from `numericColNames` comes from a numeric column of the
metadata. -/
theorem num_name_mem_sound (meta : List ColumnMeta) (n : String)
    (h : n ∈ numericColNames meta) :
    ∃ c ∈ meta, c.name = n ∧ c.ctype = ColType.numeric := by
  rcases List.mem_map.mp h with ⟨c, hc, hname⟩
  rcases List.mem_filter.mp hc with ⟨hcl, hp⟩
  exact ⟨c, hcl, hname, by simpa using hp⟩

theorem cat_head_sound (meta : List ColumnMeta) (n : String)
    (h : (categoricalColNames meta).head? = some n) :
    ∃ c ∈ meta, c.name = n ∧ c.ctype = ColType.categorical :=
  cat_name_mem_sound meta n (List.mem_of_mem_head? h)

theorem num_head_sound (meta : List ColumnMeta) (n : String)
    (h : (numericColNames meta).head? = some n) :
    ∃ c ∈ meta, c.name = n ∧ c.ctype = ColType.numeric :=
  num_name_mem_sound meta n (List.mem_of_mem_head? h)

theorem cat_second_sound (meta : List ColumnMeta) (n : String)
    (h : (categoricalColNames meta)[1]? = some n) :
    ∃ c ∈ meta, c.name = n ∧ c.ctype = ColType.categorical :=
  cat_name_mem_sound meta n (List.getElem?_mem h)

theorem num_second_sound (meta : List ColumnMeta) (n : String)
    (h : (numericColNames meta)[1]? = some n) :
    ∃ c ∈ meta, c.name = n ∧ c.ctype = ColType.numeric :=
  num_name_mem_sound meta n (List.getElem?_mem h)

/-- C3 (counterexample): for chart type "line" on a dataset with a single
numeric column, the suggested `x_column` is the non-null sentinel
`"index"`, which names no column of the metadata. -/
theorem suggested_binding_index_cex :
    (check_chart_compatibility "line"
      [⟨"Value", ColType.numeric, []⟩]).suggestions.x_column = some "index" ∧
    ∀ c ∈ ([⟨"Value", ColType.numeric, []⟩] : List ColumnMeta),
      c.name ≠ "index" :=
  ⟨by decide, by decide⟩

/-- C3 (amended): each non-null field of the suggested binding either names
a column present in the metadata whose inferred type matches the type the
role requires, or — only for the `x_column` field of line/area charts when
the metadata has no categorical column — is the sentinel string
`"index"`. -/
theorem suggested_binding_sound (chart_type : String)
    (meta : List ColumnMeta) :
    (∀ n, (check_chart_compatibility chart_type meta).suggestions.x_column
        = some n →
      (n = "index" ∧ (chart_type = "line" ∨ chart_type = "area") ∧
        categoricalColNames meta = []) ∨
      ∃ c ∈ meta, c.name = n ∧ c.ctype = xRequiredType chart_type) ∧
    (∀ n, (check_chart_compatibility chart_type meta).suggestions.y_column
        = some n →
      ∃ c ∈ meta, c.name = n ∧ c.ctype = yRequiredType chart_type) ∧
    (∀ n, (check_chart_compatibility chart_type meta).suggestions.group_column
        = some n →
      ∃ c ∈ meta, c.name = n ∧ c.ctype = groupRequiredType chart_type) := by
  unfold check_chart_compatibility
  by_cases h1 : chart_type = "bar"
  · subst h1
    rw [if_pos rfl]
    split_ifs with hcnt
    · refine ⟨?_, ?_, ?_⟩
      · intro n hn
        exact Or.inr (cat_head_sound meta n hn)
      · intro n hn
        exact num_head_sound meta n hn
      · rintro n ⟨⟩
    · exact ⟨fun n hn => hn.elim, fun n hn => hn.elim,
        fun n hn => hn.elim⟩
  rw [if_neg h1]
  by_cases h2 : chart_type = "line"
  · subst h2
    rw [if_pos rfl]
    split_ifs with hcnt
    · refine ⟨?_, ?_, ?_⟩
      · intro n hn
        rcases hcat : categoricalColNames meta with _ | ⟨c0, rest⟩
        · rw [hcat] at hn
          exact Or.inl ⟨(Option.some.inj hn).symm, Or.inl rfl, rfl⟩
        · rw [hcat] at hn
          have hx : n = c0 := (Option.some.inj hn).symm
          refine Or.inr (cat_name_mem_sound meta n ?_)
          rw [hx, hcat]
          exact List.mem_cons_self c0 rest
      · intro n hn
        exact num_head_sound meta n hn
      · rintro n ⟨⟩
    · exact ⟨fun n hn => hn.elim, fun n hn => hn.elim,
        fun n hn => hn.elim⟩
  rw [if_neg h2]
  by_cases h3 : chart_type = "scatter"
  · subst h3
    rw [if_pos rfl]
    split_ifs with hcnt
    · refine ⟨?_, ?_, ?_⟩
      · intro n hn
        exact Or.inr (num_head_sound meta n hn)
      · intro n hn
        exact num_second_sound meta n hn
      · rintro n ⟨⟩
    · exact ⟨fun n hn => hn.elim, fun n hn => hn.elim,
        fun n hn => hn.elim⟩
  rw [if_neg h3]
  by_cases h4 : chart_type = "histogram"
  · subst h4
    rw [if_pos rfl]
    split_ifs with hcnt
    · refine ⟨?_, ?_, ?_⟩
      · intro n hn
        exact Or.inr (num_head_sound meta n hn)
      · rintro n ⟨⟩
      · rintro n ⟨⟩
    · exact ⟨fun n hn => hn.elim, fun n hn => hn.elim,
        fun n hn => hn.elim⟩
  rw [if_neg h4]
  by_cases h5 : chart_type = "boxplot"
  · subst h5
    rw [if_pos rfl]
    split_ifs with hcnt
    · refine ⟨?_, ?_, ?_⟩
      · rintro n ⟨⟩
      · intro n hn
        exact num_head_sound meta n hn
      · intro n hn
        exact cat_head_sound meta n hn
    · exact ⟨fun n hn => hn.elim, fun n hn => hn.elim,
        fun n hn => hn.elim⟩
  rw [if_neg h5]
  by_cases h6 : chart_type = "heatmap"
  · subst h6
    rw [if_pos rfl]
    split_ifs with hcnt
    · refine ⟨?_, ?_, ?_⟩
      · intro n hn
        exact Or.inr (cat_head_sound meta n hn)
      · intro n hn
        exact cat_second_sound meta n hn
      · intro n hn
        exact num_head_sound meta n hn
    · exact ⟨fun n hn => hn.elim, fun n hn => hn.elim,
        fun n hn => hn.elim⟩
  rw [if_neg h6]
  by_cases h7 : chart_type = "pie"
  · subst h7
    rw [if_pos rfl]
    split_ifs with hcnt
    · refine ⟨?_, ?_, ?_⟩
      · intro n hn
        exact Or.inr (cat_head_sound meta n hn)
      · intro n hn
        exact num_head_sound meta n hn
      · rintro n ⟨⟩
    · exact ⟨fun n hn => hn.elim, fun n hn => hn.elim,
        fun n hn => hn.elim⟩
  rw [if_neg h7]
  by_cases h8 : chart_type = "violin"
  · subst h8
    rw [if_pos rfl]
    split_ifs with hcnt
    · refine ⟨?_, ?_, ?_⟩
      · rintro n ⟨⟩
      · intro n hn
        exact num_head_sound meta n hn
      · intro n hn
        exact cat_head_sound meta n hn
    · exact ⟨fun n hn => hn.elim, fun n hn => hn.elim,
        fun n hn => hn.elim⟩
  rw [if_neg h8]
  by_cases h9 : chart_type = "area"
  · subst h9
    rw [if_pos rfl]
    split_ifs with hcnt
    · refine ⟨?_, ?_, ?_⟩
      · intro n hn
        rcases hcat : categoricalColNames meta with _ | ⟨c0, rest⟩
        · rw [hcat] at hn
          exact Or.inl ⟨(Option.some.inj hn).symm, Or.inr rfl, rfl⟩
        · rw [hcat] at hn
          have hx : n = c0 := (Option.some.inj hn).symm
          refine Or.inr (cat_name_mem_sound meta n ?_)
          rw [hx, hcat]
          exact List.mem_cons_self c0 rest
      · intro n hn
        exact num_head_sound meta n hn
      · rintro n ⟨⟩
    · exact ⟨fun n hn => hn.elim, fun n hn => hn.elim,
        fun n hn => hn.elim⟩
  rw [if_neg h9]
  by_cases h10 : chart_type = "stacked_bar"
  · subst h10
    rw [if_pos rfl]
    split_ifs with hcnt
    · refine ⟨?_, ?_, ?_⟩
      · intro n hn
        exact Or.inr (cat_head_sound meta n hn)
      · intro n hn
        exact num_head_sound meta n hn
      · intro n hn
        exact cat_second_sound meta n hn
    · exact ⟨fun n hn => hn.elim, fun n hn => hn.elim,
        fun n hn => hn.elim⟩
  rw [if_neg h10]
  refine ⟨?_, ?_, ?_⟩ <;> intro n hn <;> simp at hn

/-- Witness instantiating C3's amended theorem for a bar chart on
`[Cat (categorical), Val (numeric)]`: the suggested `x_column` is `"Cat"`,
and the theorem places it in the metadata with the required categorical
type. -/
theorem suggested_binding_sound_witness :
    (check_chart_compatibility "bar"
      [⟨"Cat", ColType.categorical, []⟩, ⟨"Val", ColType.numeric, []⟩]
      ).suggestions.x_column = some "Cat" ∧
    (("Cat" = "index" ∧ ("bar" = "line" ∨ "bar" = "area") ∧
      categoricalColNames
        [⟨"Cat", ColType.categorical, []⟩, ⟨"Val", ColType.numeric, []⟩] = []) ∨
    ∃ c ∈ ([⟨"Cat", ColType.categorical, []⟩,
        ⟨"Val", ColType.numeric, []⟩] : List ColumnMeta),
      c.name = "Cat" ∧ c.ctype = xRequiredType "bar") :=
  ⟨by decide,
    (suggested_binding_sound "bar"
      [⟨"Cat", ColType.categorical, []⟩, ⟨"Val", ColType.numeric, []⟩]).1
      "Cat" (by decide)⟩

/-- Witness for C4's amended theorem at `"unknown_type"`. -/
theorem unknown_chart_type_verdict_witness :
    "unknown_type" ∉ registeredChartTypes ∧
    ((check_chart_compatibility "unknown_type" []).compatible = false ∧
    (check_chart_compatibility "unknown_type" []).reason =
      "Unknown chart type: " ++ "unknown_type") :=
  ⟨by decide, unknown_chart_type_verdict "unknown_type" (by decide) []⟩

/-! ### Ordering of group keys

`df.groupby(...)` and `pivot_table` sort group keys ascending (pandas
default `sort=True`).  The orders below are written over `Char.toNat` /
cross-multiplied integers so concrete instances evaluate in the kernel. -/

/-- Lexicographic comparison of character lists by code point. -/
def charListLe : List Char → List Char → Bool
  | [], _ => true
  | _ :: _, [] => false
  | a :: as, b :: bs =>
    if a.toNat < b.toNat then true
    else if b.toNat < a.toNat then false
    else charListLe as bs

/-- Lexicographic order on strings (by code points). -/
def strLeB (a b : String) : Bool := charListLe a.data b.data

/-- Order on ℚ by cross-multiplication (denominators positive). -/
def ratLeB (a b : ℚ) : Bool :=
  decide (a.num * (b.den : ℤ) ≤ b.num * (a.den : ℤ))

/-- Total order on cells used for group keys: numbers before text
(missing keys are dropped by `groupby` before sorting, so `na` never
occurs as a key). -/
def cellKeyLeB : Cell → Cell → Bool
  | Cell.na, _ => true
  | _, Cell.na => false
  | Cell.num a, Cell.num b => ratLeB a b
  | Cell.num _, Cell.str _ => true
  | Cell.str _, Cell.num _ => false
  | Cell.str a, Cell.str b => strLeB a b

theorem charListLe_total : ∀ a b : List Char,
    charListLe a b = true ∨ charListLe b a = true := by
  intro a
  induction a with
  | nil => intro b; exact Or.inl rfl
  | cons x xs ih =>
    intro b
    cases b with
    | nil => exact Or.inr rfl
    | cons y ys =>
      by_cases h1 : x.toNat < y.toNat
      · left
        simp [charListLe, h1]
      by_cases h2 : y.toNat < x.toNat
      · right
        simp [charListLe, h2]
      rcases ih ys with h | h
      · left
        simp [charListLe, h1, h2, h]
      · right
        simp [charListLe, h1, h2, h]

theorem charListLe_trans : ∀ a b c : List Char, charListLe a b = true →
    charListLe b c = true → charListLe a c = true := by
  intro a
  induction a with
  | nil => intro b c _ _; rfl
  | cons x xs ih =>
    intro b c hab hbc
    cases b with
    | nil => simp [charListLe] at hab
    | cons y ys =>
      cases c with
      | nil => simp [charListLe] at hbc
      | cons z zs =>
        simp only [charListLe] at hab hbc ⊢
        split_ifs at hab hbc ⊢ <;>
          first
            | rfl
            | omega
            | exact ih ys zs hab hbc

theorem ratLeB_le {a b : ℚ} : ratLeB a b = true ↔ a ≤ b := by
  rw [ratLeB, decide_eq_true_eq, Rat.le_def]

theorem cellKeyLeB_total : ∀ a b : Cell,
    cellKeyLeB a b = true ∨ cellKeyLeB b a = true := by
  intro a b
  cases a <;> cases b <;>
    simp only [cellKeyLeB] <;>
    first
      | exact Or.inl trivial
      | exact Or.inr trivial
      | (rw [ratLeB_le, ratLeB_le]; exact le_total _ _)
      | exact charListLe_total _ _

theorem cellKeyLeB_trans : ∀ a b c : Cell, cellKeyLeB a b = true →
    cellKeyLeB b c = true → cellKeyLeB a c = true := by
  intro a b c hab hbc
  cases a <;> cases b <;> cases c <;>
    simp only [cellKeyLeB] at hab hbc ⊢ <;>
    first
      | rfl
      | trivial
      | simp at hab
      | simp at hbc
      | (rw [ratLeB_le] at hab hbc ⊢; exact le_trans hab hbc)
      | exact charListLe_trans _ _ _ hab hbc

/-- The key order as a relation, for `List.insertionSort`. -/
def cellKeyRel (a b : Cell) : Prop := cellKeyLeB a b = true

instance : DecidableRel cellKeyRel :=
  fun a b => inferInstanceAs (Decidable (cellKeyLeB a b = true))

instance : IsTotal Cell cellKeyRel := ⟨cellKeyLeB_total⟩

instance : IsTrans Cell cellKeyRel := ⟨cellKeyLeB_trans⟩

/-- Distinct elements of a list in order of first appearance (the group
emergence order of a group-by). -/
def firstKeys {α : Type} [DecidableEq α] (l : List α) : List α :=
  l.foldl (fun acc a => if a ∈ acc then acc else acc ++ [a]) []

theorem mem_firstKeys_aux {α : Type} [DecidableEq α] (l acc : List α)
    (x : α) :
    (x ∈ l.foldl (fun acc a => if a ∈ acc then acc else acc ++ [a]) acc) ↔
      x ∈ acc ∨ x ∈ l := by
  induction l generalizing acc with
  | nil => simp
  | cons a rest ih =>
    simp only [List.foldl_cons]
    rw [ih]
    by_cases h : a ∈ acc
    · rw [if_pos h]
      simp only [List.mem_cons]
      constructor
      · rintro (hx | hx)
        · exact Or.inl hx
        · exact Or.inr (Or.inr hx)
      · rintro (hx | hx | hx)
        · exact Or.inl hx
        · exact Or.inl (hx ▸ h)
        · exact Or.inr hx
    · rw [if_neg h]
      simp only [List.mem_append, List.mem_singleton, List.mem_cons]
      tauto

theorem mem_firstKeys {α : Type} [DecidableEq α] (l : List α) (x : α) :
    x ∈ firstKeys l ↔ x ∈ l := by
  rw [firstKeys, mem_firstKeys_aux]
  simp

/-- `df.groupby(x_col)[y_col].sum()` on rows already reduced to
(key, value) pairs: one entry per distinct key, carrying the sum of the
values of its group, keys sorted ascending (pandas `groupby` defaults to
`sort=True`). -/
def groupby_sum (rows : List (Cell × ℚ)) : List (Cell × ℚ) :=
  (List.insertionSort cellKeyRel (firstKeys (rows.map Prod.fst))).map
    (fun k => (k, ((rows.filter (fun r => r.1 = k)).map Prod.snd).sum))

/-- Modelled from the spec's words (§4.4: "wedge order follows group
emergence order in a group-by"): the same aggregation but with keys in
order of first appearance, for comparison with `groupby_sum`. -/
def groupby_sum_emergence (rows : List (Cell × ℚ)) : List (Cell × ℚ) :=
  (firstKeys (rows.map Prod.fst)).map
    (fun k => (k, ((rows.filter (fun r => r.1 = k)).map Prod.snd).sum))

/-! ### The render dispatcher `generate_chart_matplotlib` -/

/-- A named dataset column. -/
structure Column where
  name : String
  cells : List Cell
deriving DecidableEq

/-- A pandas DataFrame: ordered named columns. -/
structure DataFrame where
  cols : List Column
deriving DecidableEq

/-- `df[col]`: raises `KeyError` when the name is `None` or absent. -/
def DataFrame.colCells (df : DataFrame) (name : Option String) :
    Except String (List Cell) :=
  match name with
  | none => Except.error "KeyError: None"
  | some n =>
    match df.cols.find? (fun c => c.name = n) with
    | some c => Except.ok c.cells
    | none => Except.error ("KeyError: " ++ n)

/-- `n in df.columns`. -/
def DataFrame.hasCol (df : DataFrame) (n : String) : Bool :=
  df.cols.any (fun c => c.name = n)

/-- `series.dropna()`. -/
def dropna (cells : List Cell) : List Cell :=
  cells.filter (fun c => !c.isNa)

/-- Numeric value of a cell for aggregation: pandas sums skip NaN, which
coincides with letting a missing cell contribute 0. -/
def cellVal : Cell → ℚ
  | Cell.num q => q
  | _ => 0

/-- `df.groupby(x_col)[y_col].sum()` for the pie branch: rows with a
missing key are dropped (`groupby` default `dropna=True`); text values in
the summed column make the drawn wedge values non-numeric and `plt.pie`
raise. -/
def pieAgg (xs ys : List Cell) : Except String (List (Cell × ℚ)) :=
  if ys.any (fun c => c.isStr) then
    Except.error "TypeError: pie wedge values must be numeric"
  else
    Except.ok (groupby_sum (((xs.zip ys).filter (fun r => !r.1.isNa)).map
      (fun r => (r.1, cellVal r.2))))

/-- `df.pivot_table(values=group_col, index=y_col, columns=x_col,
aggfunc='mean')` followed by `sns.heatmap`: text values leave no numeric
column to aggregate; an all-empty pivot makes `sns.heatmap` raise.  Cell
order inside the table is kept in emergence order (pandas lays the same
cells out as a sorted grid; no claim depends on this order). -/
def heatAgg (xs ys vs : List Cell) :
    Except String (List ((Cell × Cell) × ℚ)) :=
  if vs.any (fun c => c.isStr) then
    Except.error "DataError: No numeric types to aggregate"
  else
    if ((xs.zip (ys.zip vs)).filter
        (fun r => !r.1.isNa && !r.2.1.isNa && !r.2.2.isNa)).isEmpty then
      Except.error "ValueError: zero-size array to reduction operation"
    else
      Except.ok
        ((firstKeys (((xs.zip (ys.zip vs)).filter
            (fun r => !r.1.isNa && !r.2.1.isNa && !r.2.2.isNa)).map
            (fun r => (r.1, r.2.1)))).map
          (fun k =>
            (k,
              ((((xs.zip (ys.zip vs)).filter
                  (fun r => !r.1.isNa && !r.2.1.isNa && !r.2.2.isNa)).filter
                  (fun r => (r.1, r.2.1) = k)).map
                  (fun r => cellVal r.2.2)).sum /
              (((xs.zip (ys.zip vs)).filter
                  (fun r => !r.1.isNa && !r.2.1.isNa && !r.2.2.isNa)).filter
                  (fun r => (r.1, r.2.1) = k)).length)))

/-- `df.pivot_table(values=y_col, index=x_col, columns=group_col,
aggfunc='sum', fill_value=0)` followed by `pivot.plot(kind='bar',
stacked=True)`: text values leave nothing to aggregate; an empty pivot
makes `pivot.plot` raise before a figure is created.  Combinations absent
from the data (which `fill_value=0` would pad in the rendered grid) are
not materialised; no claim depends on them. -/
def stackAgg (xs gs ys : List Cell) :
    Except String (List ((Cell × Cell) × ℚ)) :=
  if ys.any (fun c => c.isStr) then
    Except.error "DataError: No numeric types to aggregate"
  else
    if ((xs.zip (gs.zip ys)).filter
        (fun r => !r.1.isNa && !r.2.1.isNa)).isEmpty then
      Except.error "TypeError: no numeric data to plot"
    else
      Except.ok
        ((firstKeys (((xs.zip (gs.zip ys)).filter
            (fun r => !r.1.isNa && !r.2.1.isNa)).map
            (fun r => (r.1, r.2.1)))).map
          (fun k =>
            (k,
              ((((xs.zip (gs.zip ys)).filter
                  (fun r => !r.1.isNa && !r.2.1.isNa)).filter
                  (fun r => (r.1, r.2.1) = k)).map
                  (fun r => cellVal r.2.2)).sum)))

/-- One drawing call recorded on the active figure. -/
inductive DrawCmd where
  | barCmd (xs ys : List Cell)
  | lineCmd (xs : Option (List Cell)) (ys : List Cell)
  | scatterCmd (xs ys : List Cell)
  | histCmd (xs : List Cell)
  | boxCmd (ys : List Cell)
  | boxByCmd (ys gs : List Cell)
  | heatCmd (table : List ((Cell × Cell) × ℚ))
  | pieCmd (data : List (Cell × ℚ))
  | violinCmd (ys : List Cell)
  | violinByCmd (ys gs : List Cell)
  | areaCmd (useIndex : Bool) (ys : List Cell)
  | stackedCmd (table : List ((Cell × Cell) × ℚ))
deriving DecidableEq

/-- The figure content ultimately saved to PNG and base64-encoded; the
code always uses `figsize=(10, 6)` at `dpi=100`.  An empty command list is
a blank figure. -/
structure Image where
  commands : List DrawCmd
deriving DecidableEq

/-- The chart-type branch chain inside the `try:` block of
`generate_chart_matplotlib` (app.py lines 236-320).  Returns the drawing
calls recorded and the number of EXTRA figures the branch opened beyond
the one `plt.figure` made: `df.boxplot(column=…, by=…, figsize=…)` and
`pivot.plot(kind='bar', stacked=True, figsize=…)` each create a fresh
figure of their own; every other branch draws on the current figure.
Errors abort the branch before any extra figure exists. -/
def drawChart (chart_type : String) (df : DataFrame)
    (x_col y_col group_col : Option String) :
    Except String (List DrawCmd × ℕ) :=
  if chart_type = "bar" then do
    let xs ← df.colCells x_col
    let ys ← df.colCells y_col
    pure ([DrawCmd.barCmd xs ys], 0)
  else if chart_type = "line" then
    if x_col = some "index" then do
      let ys ← df.colCells y_col
      pure ([DrawCmd.lineCmd none ys], 0)
    else do
      let xs ← df.colCells x_col
      let ys ← df.colCells y_col
      pure ([DrawCmd.lineCmd (some xs) ys], 0)
  else if chart_type = "scatter" then do
    let xs ← df.colCells x_col
    let ys ← df.colCells y_col
    pure ([DrawCmd.scatterCmd xs ys], 0)
  else if chart_type = "histogram" then do
    let xs ← df.colCells x_col
    pure ([DrawCmd.histCmd (dropna xs)], 0)
  else if chart_type = "boxplot" then
    match group_col with
    | some g => do
      let ys ← df.colCells y_col
      let gs ← df.colCells (some g)
      pure ([DrawCmd.boxByCmd ys gs], 1)
    | none => do
      let ys ← df.colCells y_col
      pure ([DrawCmd.boxCmd (dropna ys)], 0)
  else if chart_type = "heatmap" then do
    let xs ← df.colCells x_col
    let ys ← df.colCells y_col
    let vs ← df.colCells group_col
    let t ← heatAgg xs ys vs
    pure ([DrawCmd.heatCmd t], 0)
  else if chart_type = "pie" then do
    let xs ← df.colCells x_col
    let ys ← df.colCells y_col
    let d ← pieAgg xs ys
    pure ([DrawCmd.pieCmd d], 0)
  else if chart_type = "violin" then
    match group_col with
    | some g => do
      let ys ← df.colCells y_col
      let gs ← df.colCells (some g)
      pure ([DrawCmd.violinByCmd ys gs], 0)
    | none => do
      let ys ← df.colCells y_col
      pure ([DrawCmd.violinCmd ys], 0)
  else if chart_type = "area" then
    if x_col = some "index" then do
      let ys ← df.colCells y_col
      pure ([DrawCmd.areaCmd true ys], 0)
    else do
      let ys ← df.colCells y_col
      pure ([DrawCmd.areaCmd false ys], 0)
  else if chart_type = "stacked_bar" then do
    let xs ← df.colCells x_col
    let ys ← df.colCells y_col
    let gs ← df.colCells group_col
    let t ← stackAgg xs gs ys
    pure ([DrawCmd.stackedCmd t], 1)
  else
    pure ([], 0)

/-- `generate_chart_matplotlib` (app.py lines 228-337).  `plt.figure`
opens one figure; on success `savefig`+base64 produce the data-URI
artifact (modelled by the `Image`) and the single `plt.close()` closes
only the CURRENT figure; on failure the `except` branch closes the
current figure and re-raises `Exception("Error generating chart: …")`.
The second component tracks the number of open figures, `openFigs` being
the count before the call. -/
def generate_chart_matplotlib (chart_type : String) (df : DataFrame)
    (x_col y_col group_col : Option String) (openFigs : ℕ) :
    Except String Image × ℕ :=
  match drawChart chart_type df x_col y_col group_col with
  | Except.ok (cmds, extraFigs) =>
    (Except.ok ⟨cmds⟩, openFigs + 1 + extraFigs - 1)
  | Except.error e =>
    (Except.error ("Error generating chart: " ++ e), openFigs + 1 - 1)

/-! ### The `/api/generate-chart` endpoint -/

/-- The JSON replies of the endpoint: a 200 with the encoded image, or a
structured error reply with an HTTP status. -/
inductive Response where
  | okResp (image : Image)
  | errResp (status : ℕ) (msg : String)
deriving DecidableEq

/-- `if x_column and x_column != 'index' and x_column not in
current_df.columns`. -/
def xColumnMissing (df : DataFrame) (x : Option String) : Bool :=
  match x with
  | none => false
  | some n => !(n == "index") && !(df.hasCol n)

/-- `if y_column and y_column not in current_df.columns` (same for
`group_column`). -/
def colMissing (df : DataFrame) (o : Option String) : Bool :=
  match o with
  | none => false
  | some n => !(df.hasCol n)

/-- The `generate_chart` endpoint (app.py lines 400-456).  An
`Except.error` result would be an uncaught Python exception escaping the
handler; every handled path returns `Except.ok` with a `Response`.  The
`try/except` of the endpoint wraps only the dispatcher call, which is the
sole fallible operation after validation. -/
def generate_chart (current_df : Option DataFrame)
    (current_columns_metadata : List ColumnMeta)
    (chart_type x_column y_column group_column : Option String)
    (openFigs : ℕ) : Except String (Response × ℕ) :=
  match current_df with
  | none =>
    Except.ok (Response.errResp 400
      "No dataset loaded. Please upload a dataset first.", openFigs)
  | some df =>
    match chart_type with
    | none => Except.ok (Response.errResp 400 "chart_type is required", openFigs)
    | some ct =>
      if (check_chart_compatibility ct current_columns_metadata).compatible
          = false then
        Except.ok (Response.errResp 400
          (check_chart_compatibility ct current_columns_metadata).reason,
          openFigs)
      else if xColumnMissing df x_column then
        Except.ok (Response.errResp 400
          ("Column " ++ x_column.getD "None" ++ " not found"), openFigs)
      else if colMissing df y_column then
        Except.ok (Response.errResp 400
          ("Column " ++ y_column.getD "None" ++ " not found"), openFigs)
      else if colMissing df group_column then
        Except.ok (Response.errResp 400
          ("Column " ++ group_column.getD "None" ++ " not found"), openFigs)
      else
        match generate_chart_matplotlib ct df x_column y_column group_column
            openFigs with
        | (Except.ok img, figs2) => Except.ok (Response.okResp img, figs2)
        | (Except.error e, figs2) =>
          Except.ok (Response.errResp 500
            ("Error generating chart: " ++ e), figs2)

/-- Rows of the C6 scenario already reduced to (key, value) pairs. -/
def pieRows : List (Cell × ℚ) :=
  [(Cell.str "A", 10), (Cell.str "A", 5), (Cell.str "B", 20)]

/-- The C6 scenario dataset: Category = A,A,B and Value = 10,5,20. -/
def pieDf : DataFrame :=
  ⟨[⟨"Category", [Cell.str "A", Cell.str "A", Cell.str "B"]⟩,
    ⟨"Value", [Cell.num 10, Cell.num 5, Cell.num 20]⟩]⟩

/-- A dataset with a numeric column `v` and a categorical column `grp`. -/
def dfBox : DataFrame :=
  ⟨[⟨"v", [Cell.num 1, Cell.num 2]⟩,
    ⟨"grp", [Cell.str "a", Cell.str "b"]⟩]⟩

/-- A dataset fitting stacked_bar: x and g categorical, v numeric. -/
def dfStack : DataFrame :=
  ⟨[⟨"x", [Cell.str "a"]⟩, ⟨"g", [Cell.str "b"]⟩, ⟨"v", [Cell.num 1]⟩]⟩

/-- A one-numeric-column dataset and its metadata, for witnesses. -/
def dfHist : DataFrame := ⟨[⟨"v", [Cell.num 1, Cell.num 2]⟩]⟩

/-- Metadata of `dfHist`. -/
def metaHist : List ColumnMeta := [⟨"v", ColType.numeric, []⟩]

/-- The keys of `groupby_sum` are the distinct input keys sorted by
`cellKeyRel`. -/
theorem groupby_sum_keys (rows : List (Cell × ℚ)) :
    (groupby_sum rows).map Prod.fst =
      List.insertionSort cellKeyRel (firstKeys (rows.map Prod.fst)) := by
  unfold groupby_sum
  rw [List.map_map]
  have hcomp : ((fun p : Cell × ℚ => p.1) ∘ fun k : Cell =>
      (k, ((rows.filter (fun r => r.1 = k)).map Prod.snd).sum)) = id := rfl
  rw [hcomp, List.map_id]

/-- Evaluation of the aggregation on the C6 scenario rows. -/
theorem groupby_sum_pieRows_eq :
    groupby_sum pieRows = [(Cell.str "A", 15), (Cell.str "B", 20)] := by
  unfold groupby_sum
  have hkeys : List.insertionSort cellKeyRel (firstKeys (pieRows.map Prod.fst))
      = [Cell.str "A", Cell.str "B"] := by decide
  rw [hkeys]
  simp only [List.map_cons, List.map_nil]
  have hfA : pieRows.filter (fun r => r.1 = Cell.str "A") =
      [(Cell.str "A", 10), (Cell.str "A", 5)] := by decide
  have hfB : pieRows.filter (fun r => r.1 = Cell.str "B") =
      [(Cell.str "B", 20)] := by decide
  rw [hfA, hfB]
  simp only [List.map_cons, List.map_nil, List.sum_cons, List.sum_nil,
    add_zero]
  norm_num

/-- C6 (counterexample): on rows [(B,1),(A,2)] the code's aggregation
(`df.groupby(x)[y].sum()`, which sorts keys) orders the wedges A,B while
the claimed group-emergence order is B,A, so the claim's order clause
fails. -/
theorem pie_wedge_order_cex :
    groupby_sum [(Cell.str "B", (1:ℚ)), (Cell.str "A", 2)] ≠
      groupby_sum_emergence [(Cell.str "B", (1:ℚ)), (Cell.str "A", 2)] ∧
    (groupby_sum [(Cell.str "B", (1:ℚ)), (Cell.str "A", 2)]).map Prod.fst =
      [Cell.str "A", Cell.str "B"] ∧
    (groupby_sum_emergence [(Cell.str "B", (1:ℚ)), (Cell.str "A", 2)]).map
      Prod.fst = [Cell.str "B", Cell.str "A"] := by
  refine ⟨?_, by decide, by decide⟩
  intro h
  have h2 := congrArg (fun l => l.map Prod.fst) h
  revert h2
  decide

/-- C6 (amended): the pie branch groups rows by the x column and sums the
y column per group before drawing wedges — on rows [(A,10),(A,5),(B,20)]
the drawn data is A=15, B=20 — and wedge order follows ascending group-key
order (pandas sorted group-by), which on this example coincides with
emergence order.  Every entry of the aggregation is the sum of its group,
over a key drawn from the rows, and the key order is sorted. -/
theorem pie_aggregates_before_drawing :
    (∀ figs : ℕ,
      generate_chart_matplotlib "pie" pieDf (some "Category") (some "Value")
          none figs =
        (Except.ok ⟨[DrawCmd.pieCmd
          [(Cell.str "A", 15), (Cell.str "B", 20)]]⟩, figs)) ∧
    (∀ rows : List (Cell × ℚ), ∀ p ∈ groupby_sum rows,
      p.2 = ((rows.filter (fun r => r.1 = p.1)).map Prod.snd).sum ∧
      p.1 ∈ rows.map Prod.fst) ∧
    (∀ rows : List (Cell × ℚ),
      ((groupby_sum rows).map Prod.fst).Pairwise cellKeyRel) := by
  refine ⟨?_, ?_, ?_⟩
  · intro figs
    have hd0 : drawChart "pie" pieDf (some "Category") (some "Value") none =
        Except.ok ([DrawCmd.pieCmd (groupby_sum pieRows)], 0) := rfl
    unfold generate_chart_matplotlib
    rw [hd0, groupby_sum_pieRows_eq]
    rfl
  · intro rows p hp
    unfold groupby_sum at hp
    rcases List.mem_map.mp hp with ⟨k, hk, rfl⟩
    refine ⟨rfl, ?_⟩
    have hk2 := (List.perm_insertionSort cellKeyRel
      (firstKeys (rows.map Prod.fst))).mem_iff.mp hk
    exact (mem_firstKeys _ _).mp hk2
  · intro rows
    rw [groupby_sum_keys]
    exact List.sorted_insertionSort cellKeyRel _

/-- Witness for C6's amended theorem: instantiating its per-group-sum part
at the A-wedge of the scenario rows. -/
theorem pie_aggregates_before_drawing_witness :
    (Cell.str "A", (15:ℚ)) ∈ groupby_sum pieRows ∧
    ((Cell.str "A", (15:ℚ)).2 =
      ((pieRows.filter
        (fun r => r.1 = (Cell.str "A", (15:ℚ)).1)).map Prod.snd).sum ∧
      (Cell.str "A", (15:ℚ)).1 ∈ pieRows.map Prod.fst) :=
  have hmem : (Cell.str "A", (15:ℚ)) ∈ groupby_sum pieRows := by
    rw [groupby_sum_pieRows_eq]
    exact List.mem_cons_self _ _
  ⟨hmem, pie_aggregates_before_drawing.2.1 pieRows (Cell.str "A", 15) hmem⟩

/-- C8: on chart type boxplot with a group column (and likewise
stacked_bar), the branch lets pandas open a SECOND figure
(`df.boxplot(..., figsize=…)` / `pivot.plot(..., figsize=…)`) and the
single `plt.close()` closes only the current one, so a successful call
leaks one open figure (count goes 0 → 1); a histogram call stays
balanced (0 → 0). -/
theorem figure_leak_on_group_charts :
    (generate_chart_matplotlib "boxplot" dfBox none (some "v") (some "grp")
      0).2 = 1 ∧
    (generate_chart_matplotlib "stacked_bar" dfStack (some "x") (some "v")
      (some "g") 0).2 = 1 ∧
    (generate_chart_matplotlib "histogram" dfBox (some "v") none none
      0).2 = 0 := by
  refine ⟨rfl, rfl, rfl⟩

/-- C10: for every chart type id outside the ten registered ids, the
dispatcher falls through every branch and still returns the (blank)
figure artifact — no error — with the figure count balanced. -/
theorem unknown_chart_blank_figure (chart_type : String)
    (h : chart_type ∉ registeredChartTypes) (df : DataFrame)
    (x y g : Option String) (figs : ℕ) :
    generate_chart_matplotlib chart_type df x y g figs =
      (Except.ok ⟨[]⟩, figs) := by
  simp only [registeredChartTypes, List.mem_cons, List.not_mem_nil, or_false,
    not_or] at h
  obtain ⟨h1, h2, h3, h4, h5, h6, h7, h8, h9, h10⟩ := h
  unfold generate_chart_matplotlib drawChart
  rw [if_neg h1, if_neg h2, if_neg h3, if_neg h4, if_neg h5, if_neg h6,
    if_neg h7, if_neg h8, if_neg h9, if_neg h10]
  rfl

/-- Witness for C10 at chart type `"unknown_type"`. -/
theorem unknown_chart_blank_figure_witness :
    "unknown_type" ∉ registeredChartTypes ∧
    generate_chart_matplotlib "unknown_type" dfHist none none none 3 =
      (Except.ok ⟨[]⟩, 3) :=
  ⟨by decide,
    unknown_chart_blank_figure "unknown_type" (by decide) dfHist
      none none none 3⟩

/-- Unfolding of the endpoint once a dataset and a chart type are
present. -/
theorem generate_chart_some_eq (df : DataFrame) (meta : List ColumnMeta)
    (ct : String) (x y g : Option String) (figs : ℕ) :
    generate_chart (some df) meta (some ct) x y g figs =
      (if (check_chart_compatibility ct meta).compatible = false then
        Except.ok (Response.errResp 400
          (check_chart_compatibility ct meta).reason, figs)
      else if xColumnMissing df x then
        Except.ok (Response.errResp 400
          ("Column " ++ x.getD "None" ++ " not found"), figs)
      else if colMissing df y then
        Except.ok (Response.errResp 400
          ("Column " ++ y.getD "None" ++ " not found"), figs)
      else if colMissing df g then
        Except.ok (Response.errResp 400
          ("Column " ++ g.getD "None" ++ " not found"), figs)
      else
        match generate_chart_matplotlib ct df x y g figs with
        | (Except.ok img, figs2) => Except.ok (Response.okResp img, figs2)
        | (Except.error e, figs2) =>
          Except.ok (Response.errResp 500
            ("Error generating chart: " ++ e), figs2)) := rfl

/-- C2: for any binding accepted as compatible, the endpoint never lets a
fault escape: it returns `Except.ok` with either a 200-with-image response
or a structured error response; and whenever the dispatcher raises, the
endpoint catches the exception and returns the structured 500 reply
wrapping its message. -/
theorem generate_chart_no_escape (df : DataFrame) (meta : List ColumnMeta)
    (ct : String) (x y g : Option String) (figs : ℕ)
    (hc : (check_chart_compatibility ct meta).compatible = true) :
    ((∃ img figs2, generate_chart (some df) meta (some ct) x y g figs =
        Except.ok (Response.okResp img, figs2)) ∨
      (∃ code msg figs2, generate_chart (some df) meta (some ct) x y g figs =
        Except.ok (Response.errResp code msg, figs2))) ∧
    (∀ e figs2, xColumnMissing df x = false → colMissing df y = false →
      colMissing df g = false →
      generate_chart_matplotlib ct df x y g figs = (Except.error e, figs2) →
      generate_chart (some df) meta (some ct) x y g figs =
        Except.ok (Response.errResp 500
          ("Error generating chart: " ++ e), figs2)) := by
  have hnf : ¬ ((check_chart_compatibility ct meta).compatible = false) := by
    rw [hc]
    simp
  constructor
  · by_cases hx : xColumnMissing df x = true
    · refine Or.inr ⟨400, "Column " ++ x.getD "None" ++ " not found",
        figs, ?_⟩
      rw [generate_chart_some_eq, if_neg hnf, if_pos hx]
    by_cases hy : colMissing df y = true
    · refine Or.inr ⟨400, "Column " ++ y.getD "None" ++ " not found",
        figs, ?_⟩
      rw [generate_chart_some_eq, if_neg hnf, if_neg hx, if_pos hy]
    by_cases hg : colMissing df g = true
    · refine Or.inr ⟨400, "Column " ++ g.getD "None" ++ " not found",
        figs, ?_⟩
      rw [generate_chart_some_eq, if_neg hnf, if_neg hx, if_neg hy, if_pos hg]
    rcases hgen : generate_chart_matplotlib ct df x y g figs with ⟨res, figs2⟩
    cases res with
    | ok img =>
      refine Or.inl ⟨img, figs2, ?_⟩
      rw [generate_chart_some_eq, if_neg hnf, if_neg hx, if_neg hy, if_neg hg,
        hgen]
    | error e =>
      refine Or.inr ⟨500, "Error generating chart: " ++ e, figs2, ?_⟩
      rw [generate_chart_some_eq, if_neg hnf, if_neg hx, if_neg hy, if_neg hg,
        hgen]
  · intro e figs2 hx hy hg hgen
    rw [generate_chart_some_eq, if_neg hnf, if_neg (by rw [hx]; simp),
      if_neg (by rw [hy]; simp), if_neg (by rw [hg]; simp), hgen]

/-- Witness for C2 at a histogram request over `dfHist`. -/
theorem generate_chart_no_escape_witness :
    (check_chart_compatibility "histogram" metaHist).compatible = true ∧
    (((∃ img figs2, generate_chart (some dfHist) metaHist (some "histogram")
        (some "v") none none 0 = Except.ok (Response.okResp img, figs2)) ∨
      (∃ code msg figs2, generate_chart (some dfHist) metaHist
        (some "histogram") (some "v") none none 0 =
        Except.ok (Response.errResp code msg, figs2))) ∧
    (∀ e figs2, xColumnMissing dfHist (some "v") = false →
      colMissing dfHist none = false → colMissing dfHist none = false →
      generate_chart_matplotlib "histogram" dfHist (some "v") none none 0 =
        (Except.error e, figs2) →
      generate_chart (some dfHist) metaHist (some "histogram") (some "v")
          none none 0 =
        Except.ok (Response.errResp 500
          ("Error generating chart: " ++ e), figs2))) :=
  ⟨by decide,
    generate_chart_no_escape dfHist metaHist "histogram" (some "v") none
      none 0 (by decide)⟩

end VibeChart
